import Mathlib

/-!
Verification of the wall-clock sampling engine (`wallClock.cpp`, `engine.cpp`).

The file shallowly embeds the engine's data model and operations:
the thread-state classifier `getThreadState`, the spin-wait `waitWhile`,
the handshake slot (globals `_thread_id`, `_thread_data`,
`_thread_data_settable`, `_thread_data_ready`, `_stack_walked`), the
driver `walkStack`, the signal handler, `adjustInterval`, the timer
loop's per-iteration target loop and end-of-iteration sleep, and the
`start` lifecycle path together with `Engine::check`.

Machine integers (`long`, `int`, `tid_t`) are embedded as `Int`;
addresses (`uintptr_t`, `Data*`) as `Nat`, with a null pointer embedded
as `Option.none`.  C++ integer division (truncation toward zero) is
`Int.tdiv`.  All five handshake-slot fields are seq-cst atomics in the
source, so cross-thread executions are modelled as interleavings of the
individual loads, stores and CAS operations (a step relation), and the
spin loops as fuel-indexed runs of their observation sequences.
-/

/-- Thread states as in the source (`THREAD_RUNNING`, `THREAD_SLEEPING`,
`THREAD_UNKNOWN`). -/
inductive ThreadState where
  | THREAD_RUNNING
  | THREAD_SLEEPING
  | THREAD_UNKNOWN
  deriving DecidableEq

/-- Arithmetic on `uintptr_t` is is modulo `2 ^ 64`. -/
def UINTPTR_MOD : Nat := 2 ^ 64

/-- Environment of `WallClock::getThreadState`: the architecture constant
`SYSCALL_SIZE`, the instruction predicate `StackFrame::isSyscall`, the
library oracle `Profiler::instance()->findLibraryByAddress` (true when the
address is inside a mapped library), and the result of
`frame.checkInterruptedSyscall()`. -/
structure ClassifierCtx where
  syscallSize : Nat
  isSyscallAt : Nat → Bool
  findLibraryByAddress : Nat → Bool
  checkInterruptedSyscall : Bool

/-- The address `prev_pc = pc - SYSCALL_SIZE` with `uintptr_t` wraparound. -/
def prevPC (ctx : ClassifierCtx) (pc : Nat) : Nat :=
  (pc + UINTPTR_MOD - ctx.syscallSize) % UINTPTR_MOD

/-- Function `WallClock::getThreadState`, instrumented with the list of code
addresses whose bytes the function reads (`StackFrame::isSyscall`
dereferences its argument; `pc` itself is always read, `prev_pc` only
behind the page-offset / library-oracle guard). -/
def getThreadStateWithReads (ctx : ClassifierCtx) (pc : Nat) :
    ThreadState × List Nat :=
  if ctx.isSyscallAt pc then
    (ThreadState.THREAD_SLEEPING, [pc])
  else if ctx.syscallSize ≤ pc &&& 0xfff ∨
      ctx.findLibraryByAddress (prevPC ctx pc) = true then
    if ctx.isSyscallAt (prevPC ctx pc) = true ∧
        ctx.checkInterruptedSyscall = true then
      (ThreadState.THREAD_SLEEPING, [pc, prevPC ctx pc])
    else
      (ThreadState.THREAD_RUNNING, [pc, prevPC ctx pc])
  else
    (ThreadState.THREAD_RUNNING, [pc])

/-- Function `WallClock::getThreadState` (result only). -/
def getThreadState (ctx : ClassifierCtx) (pc : Nat) : ThreadState :=
  (getThreadStateWithReads ctx pc).1

/-- The addresses read by `WallClock::getThreadState`. -/
def getThreadStateReads (ctx : ClassifierCtx) (pc : Nat) : List Nat :=
  (getThreadStateWithReads ctx pc).2

/-- A `waitWhile(condition, timeout_ns)` call run for `fuel` iterations starting
at iteration index `i` : `cond i` is the value of `condition()` at the
i-th loop-head check and `elapsed i` the value of `OS::nanotime() - start`
at that iteration.  Returns `some true` when the condition became false,
`some false` when the timeout was hit, and `none` when `fuel` ran out
with the loop still spinning. -/
def waitWhileRun (cond : Nat → Bool) (elapsed : Nat → Int)
    (timeout_ns : Int) : Nat → Nat → Option Bool
  | 0, _ => none
  | fuel + 1, i =>
    if cond i = false then some true
    else if timeout_ns ≠ -1 ∧ timeout_ns < elapsed i then some false
    else waitWhileRun cond elapsed timeout_ns fuel (i + 1)

/-- The signal handler's wait `waitWhile([&](){ return !_stack_walked; })`:
the `timeout_ns` argument is left at its default `-1` (no timeout).
`stackWalked i` is the value of `_stack_walked` loaded at iteration `i`. -/
def handlerWaitForStackWalk (stackWalked : Nat → Bool) (elapsed : Nat → Int)
    (fuel : Nat) : Option Bool :=
  waitWhileRun (fun i => ! stackWalked i) elapsed (-1) fuel 0

/-- The handshake slot: the five file-scope atomics of `wallClock.cpp`.
`threadId` is `_thread_id`, `data` is `_thread_data` (`none` = null),
`settable` is `_thread_data_settable`, `ready` is `_thread_data_ready`,
`walked` is `_stack_walked`. -/
structure Slot where
  threadId : Int
  data : Option Nat
  settable : Bool
  ready : Bool
  walked : Bool
  deriving DecidableEq

/-- The five slot fields, named as in the specification: `targetTid` is
`_thread_id`, `contextPtr` is `_thread_data`, `handlerMayPublish` is
`_thread_data_settable`, `contextReady` is `_thread_data_ready`,
`stackWalked` is `_stack_walked`. -/
inductive SlotField where
  | targetTid
  | contextPtr
  | handlerMayPublish
  | stackWalked
  | contextReady
  deriving DecidableEq

/-- The store performed by `walkStack`'s arm phase on each field:
`_thread_id = thread_id`, `_thread_data = nullptr`,
`_thread_data_settable = true`, `_stack_walked = false`,
`_thread_data_ready = false`. -/
def applyArmWrite (tid : Int) (f : SlotField) (s : Slot) : Slot :=
  match f with
  | SlotField.targetTid => { s with threadId := tid }
  | SlotField.contextPtr => { s with data := none }
  | SlotField.handlerMayPublish => { s with settable := true }
  | SlotField.stackWalked => { s with walked := false }
  | SlotField.contextReady => { s with ready := false }

/-- The order of the five arm-phase stores in `walkStack`
(source lines 89-93, top to bottom). -/
def armWriteOrder : List SlotField :=
  [SlotField.targetTid, SlotField.contextPtr, SlotField.handlerMayPublish,
   SlotField.stackWalked, SlotField.contextReady]

/-- Modelled from the spec (for comparison with `armWriteOrder`): the
arm-phase store order the specification claims, `target_tid` first, then
`context_ptr = null`, `context_ready = false`, `stack_walked = false`,
and `handler_may_publish = true` last. -/
def specArmWriteOrder : List SlotField :=
  [SlotField.targetTid, SlotField.contextPtr, SlotField.contextReady,
   SlotField.stackWalked, SlotField.handlerMayPublish]

/-- Net effect of `walkStack`'s arm phase on the slot. -/
def armSlot (tid : Int) (s : Slot) : Slot :=
  armWriteOrder.foldl (fun t f => applyArmWrite tid f t) s

/-- The CAS `_thread_data_settable.compare_exchange_strong(f, false)` with
`f = true`: succeeds exactly when the current value is `true`, in which
case the stored value becomes `false`; a failing CAS stores nothing.
Returns `(succeeded, new value)`. -/
def casSettable (b : Bool) : Bool × Bool :=
  if b then (true, false) else (false, b)

/-- Number of successful CASes in a sequence of `n` handler invocations
all attempting `compare_exchange_strong(true → false)` on the settable
flag, starting from value `b`.  The five slot atomics are seq-cst, so
the CASes of one arm phase form such a totally ordered sequence, and
during an arm phase no operation other than these CASes writes the flag
(the only store of `true` is the arm write itself). -/
def casSuccCount : Bool → Nat → Nat
  | _, 0 => 0
  | b, n + 1 =>
    (if (casSettable b).1 then 1 else 0) + casSuccCount (casSettable b).2 n

/-- Outcome of one `WallClock::signalHandler` invocation, up to (and
excluding) its final wait: either it returned early publishing nothing,
or it published and is now spinning on `_stack_walked`. -/
inductive HandlerResult where
  | earlyReturn (s : Slot)
  | published (s : Slot)
  deriving DecidableEq

/-- Function `WallClock::signalHandler` run to its wait point as one atomic block
against slot state `s` (adequate for the early-return paths, which
perform no store at all).  `mytid` is `OS::threadId()` in the signalled
thread, `dataAddr` the address of the handler's stack-local `Data`
(built from the ucontext and `VM::jni()`). -/
def signalHandlerRun (s : Slot) (mytid : Int) (dataAddr : Nat) :
    HandlerResult :=
  if mytid ≠ s.threadId then
    HandlerResult.earlyReturn s
  else if (casSettable s.settable).1 = false then
    HandlerResult.earlyReturn s
  else
    HandlerResult.published
      { s with settable := false, data := some dataAddr, ready := true }

/-- Constant `HANDSHAKE_TIMEOUT`: `walkStack` waits `10 * 1000 * 1000` ns (10 ms)
for `_thread_data_ready`. -/
def HANDSHAKE_TIMEOUT : Int := 10 * 1000 * 1000

/-- Driver-side environment of one `walkStack` call: whether
`OS::sendSignalToThread(thread_id, SIGVTALRM)` succeeds, the successive
values the driver's spin loads from `_thread_data_ready`, the elapsed
nanoseconds at each spin iteration, and the spin fuel. -/
structure WalkEnv where
  sendSignalOk : Bool
  readyObs : Nat → Bool
  elapsed : Nat → Int
  fuel : Nat

/-- Function `WallClock::walkStack` from the driver's viewpoint: arm the slot,
send the signal, spin on `_thread_data_ready` with `HANDSHAKE_TIMEOUT`,
then record one sample and release the handler via `_stack_walked`.
Returns `none` when the spin fuel ran out undecided, otherwise
`some (final slot as written by the driver, return value, number of
`Profiler::recordSample` calls)`. -/
def walkStackRun (tid : Int) (env : WalkEnv) (s : Slot) :
    Option (Slot × Bool × Nat) :=
  let s1 := armSlot tid s
  if env.sendSignalOk = false then
    some ({ s1 with threadId := -1 }, false, 0)
  else
    match waitWhileRun (fun i => ! env.readyObs i) env.elapsed
        HANDSHAKE_TIMEOUT env.fuel 0 with
    | none => none
    | some false => some ({ s1 with threadId := -1 }, false, 0)
    | some true => some ({ s1 with walked := true }, true, 1)

/-- Constant `THREADS_PER_TICK`: at most 8 threads are sampled per timer-loop
iteration. -/
def THREADS_PER_TICK : Int := 8

/-- Constant `MIN_INTERVAL`: hard floor of 100000 ns (100 microseconds) on the
idle-sampling iteration sleep. -/
def MIN_INTERVAL : Int := 100000

/-- Function `WallClock::adjustInterval`. -/
def adjustInterval (interval : Int) (thread_count : Int) : Int :=
  if THREADS_PER_TICK < thread_count then
    Int.tdiv interval
      (Int.tdiv (thread_count + THREADS_PER_TICK - 1) THREADS_PER_TICK)
  else interval

/-- The per-iteration target loop of `WallClock::timerLoop`
(`for (int count = 0; count < THREADS_PER_TICK; )`), abstracted over the
sequence of `thread_list->next()` results and the outcomes of the
external queries: `accept` is `thread_filter->accept`, `threadRunning`
is `OS::threadState(tid) == THREAD_RUNNING`, `walkOk` the return value
of `walkStack(tid)`.  Returns the final value of `count`. -/
def innerLoop (self : Int) (filterEnabled : Bool) (accept : Int → Bool)
    (sampleIdle : Bool) (threadRunning : Int → Bool) (walkOk : Int → Bool) :
    List Int → Int → Int
  | [], count => count
  | tid :: rest, count =>
    if THREADS_PER_TICK ≤ count then count
    else if tid = -1 then count
    else if tid = self ∨ (filterEnabled = true ∧ accept tid = false) then
      innerLoop self filterEnabled accept sampleIdle threadRunning walkOk
        rest count
    else if sampleIdle = true ∨ threadRunning tid = true then
      if walkOk tid then
        innerLoop self filterEnabled accept sampleIdle threadRunning walkOk
          rest (count + 1)
      else
        innerLoop self filterEnabled accept sampleIdle threadRunning walkOk
          rest count
    else
      innerLoop self filterEnabled accept sampleIdle threadRunning walkOk
        rest count

/-- End-of-iteration pacing of `WallClock::timerLoop` in idle-sampling
mode: given `next_cycle_time` and the current `OS::nanotime()`, returns
the duration passed to `OS::sleep` and the new `next_cycle_time`. -/
def iterationSleep (next_cycle_time current_time : Int) : Int × Int :=
  if MIN_INTERVAL < next_cycle_time - current_time then
    (next_cycle_time - current_time, next_cycle_time)
  else
    (MIN_INTERVAL, current_time + MIN_INTERVAL)

/-- Errors returned by the lifecycle entry points. -/
inductive Error where
  | OK
  | unableToCreateTimerThread
  deriving DecidableEq

/-- The profiler arguments consumed by `WallClock::start`:
`args._wall` (negative when unset), `args._interval`, `args._event`. -/
structure Arguments where
  wall : Int
  interval : Int
  event : String

/-- Constant `EVENT_WALL`, the event name compared against `args._event`. -/
def EVENT_WALL : String := "wall"

/-- Function `Engine::check` (`engine.cpp`): accepts every argument set. -/
def Engine.check (_ : Arguments) : Error :=
  Error.OK

/-- The engine state mutated by `WallClock::start`:
`_sample_idle_threads`, `_interval`, whether
`OS::installSignalHandler(SIGVTALRM, signalHandler)` has run, and
`_running`. -/
structure EngineState where
  sampleIdle : Bool
  interval : Int
  handlerInstalled : Bool
  running : Bool
  deriving DecidableEq

/-- Function `WallClock::start`: resolve `_sample_idle_threads` and `_interval`
from the arguments (`DEFAULT_INTERVAL` is defined outside this
translation unit and passed in), install the signal handler, set
`_running = true`, then create the timer thread (`pthreadCreateOk` is
the success of `pthread_create`).  Returns the error and the mutated
state. -/
def WallClock.start (args : Arguments) (defaultInterval : Int)
    (pthreadCreateOk : Bool) (_s : EngineState) : Error × EngineState :=
  let sampleIdle := 0 ≤ args.wall ∨ args.event = EVENT_WALL
  let i0 := if 0 ≤ args.wall then args.wall else args.interval
  let i1 := if i0 = 0 then
      (if sampleIdle then defaultInterval * 5 else defaultInterval)
    else i0
  let s1 : EngineState :=
    { sampleIdle := decide sampleIdle, interval := i1,
      handlerInstalled := true, running := true }
  if pthreadCreateOk then (Error.OK, s1)
  else (Error.unableToCreateTimerThread, s1)

/-- A configuration of one handshake: the slot, the driver's program
counter through `walkStack` (0-4 = the five arm stores in
`armWriteOrder` order, 5 = spinning on `_thread_data_ready`, 6 = loaded
`_thread_data` and calling the recorder, 7 = released via
`_stack_walked = true`, 8 = abandoned after timeout), the handler's
program counter through `signalHandler` (0 = about to load `_thread_id`,
1 = about to CAS `_thread_data_settable`, 2 = about to store
`_thread_data`, 3 = about to store `_thread_data_ready`, 4 = spinning on
`_stack_walked`, 5 = returned), whether the handler's CAS succeeded, and
the value of the driver's `_thread_data.load()` once performed. -/
structure Config where
  slot : Slot
  dpc : Nat
  hpc : Nat
  hwon : Bool
  loaded : Option (Option Nat)
  deriving DecidableEq

/-- Start of a handshake: driver about to arm, handler not yet run. -/
def initConfig (s : Slot) : Config :=
  { slot := s, dpc := 0, hpc := 0, hwon := false, loaded := none }

/-- Interleaving semantics of one `walkStack` call racing one
`signalHandler` invocation.  Every access to the five seq-cst slot
atomics is its own step; `T` is the driver's `thread_id` argument,
`mytid` the handler thread's `OS::threadId()`, `d` the address of the
handler's stack-local `Data`. -/
inductive Step (T mytid : Int) (d : Nat) : Config → Config → Prop
  | armTargetTid (c : Config) : c.dpc = 0 →
      Step T mytid d c
        { c with slot := applyArmWrite T SlotField.targetTid c.slot, dpc := 1 }
  | armContextPtr (c : Config) : c.dpc = 1 →
      Step T mytid d c
        { c with slot := applyArmWrite T SlotField.contextPtr c.slot, dpc := 2 }
  | armMayPublish (c : Config) : c.dpc = 2 →
      Step T mytid d c
        { c with slot := applyArmWrite T SlotField.handlerMayPublish c.slot, dpc := 3 }
  | armStackWalked (c : Config) : c.dpc = 3 →
      Step T mytid d c
        { c with slot := applyArmWrite T SlotField.stackWalked c.slot, dpc := 4 }
  | armContextReady (c : Config) : c.dpc = 4 →
      Step T mytid d c
        { c with slot := applyArmWrite T SlotField.contextReady c.slot, dpc := 5 }
  | driverLoadData (c : Config) : c.dpc = 5 → c.slot.ready = true →
      Step T mytid d c { c with loaded := some c.slot.data, dpc := 6 }
  | driverTimeout (c : Config) : c.dpc = 5 →
      Step T mytid d c
        { c with slot := { c.slot with threadId := -1 }, dpc := 8 }
  | driverRelease (c : Config) : c.dpc = 6 →
      Step T mytid d c
        { c with slot := { c.slot with walked := true }, dpc := 7 }
  | handlerTidMatch (c : Config) : c.hpc = 0 → mytid = c.slot.threadId →
      Step T mytid d c { c with hpc := 1 }
  | handlerTidMismatch (c : Config) : c.hpc = 0 → mytid ≠ c.slot.threadId →
      Step T mytid d c { c with hpc := 5 }
  | handlerCasWin (c : Config) : c.hpc = 1 → c.slot.settable = true →
      Step T mytid d c
        { c with slot := { c.slot with settable := false }, hwon := true, hpc := 2 }
  | handlerCasFail (c : Config) : c.hpc = 1 → c.slot.settable = false →
      Step T mytid d c { c with hpc := 5 }
  | handlerPublishData (c : Config) : c.hpc = 2 →
      Step T mytid d c
        { c with slot := { c.slot with data := some d }, hpc := 3 }
  | handlerPublishReady (c : Config) : c.hpc = 3 →
      Step T mytid d c
        { c with slot := { c.slot with ready := true }, hpc := 4 }
  | handlerSpinDone (c : Config) : c.hpc = 4 → c.slot.walked = true →
      Step T mytid d c { c with hpc := 5 }

/-- Configurations reachable from `initConfig s0` by `Step`s. -/
inductive Reach (T mytid : Int) (d : Nat) (s0 : Slot) : Config → Prop
  | refl : Reach T mytid d s0 (initConfig s0)
  | tail {c c' : Config} : Reach T mytid d s0 c → Step T mytid d c c' →
      Reach T mytid d s0 c'

/-- Inductive invariant of the handshake interleaving: before the arm
store of `_thread_data_settable` the flag is still false; the handler
can only have won the CAS after that store; a winning handler past its
`_thread_data` store has left a non-null pointer in the slot; the driver
can only observe `_thread_data_ready = true` after its own clearing
store if the winning handler has published; hence whatever the driver
loads from `_thread_data` is the handler's `Data` address. -/
def HSInv (d : Nat) (c : Config) : Prop :=
  (c.dpc < 3 → c.slot.settable = false) ∧
  (c.hwon = true → 3 ≤ c.dpc) ∧
  ((c.hpc = 2 ∨ c.hpc = 3 ∨ c.hpc = 4) → c.hwon = true) ∧
  (c.hwon = true → 3 ≤ c.hpc → c.slot.data = some d) ∧
  (5 ≤ c.dpc → c.slot.ready = true → c.hwon = true ∧ 4 ≤ c.hpc) ∧
  (∀ v, c.loaded = some v → v = some d) ∧
  (c.hwon = true → 2 ≤ c.hpc)

/-- Once the settable flag is false, no further CAS of an arm phase can
succeed. -/
theorem casSuccCount_false (n : Nat) : casSuccCount false n = 0 := by
  induction n with
  | zero => rfl
  | succ m ih => simp [casSuccCount, casSettable, ih]

/-- C8: `adjustInterval(interval, n)` returns `interval` unchanged when
`n ≤ THREADS_PER_TICK = 8`, and otherwise returns `interval` divided
(C++ truncating integer division) by `(n + THREADS_PER_TICK - 1) /
THREADS_PER_TICK`, which for `n > 8` is exactly the ceiling of
`n / THREADS_PER_TICK` (the least `q` with `n ≤ 8 * q`). -/
theorem adjustInterval_spec (interval n : Int) :
    THREADS_PER_TICK = 8 ∧
    (n ≤ THREADS_PER_TICK → adjustInterval interval n = interval) ∧
    (THREADS_PER_TICK < n →
      adjustInterval interval n =
        Int.tdiv interval
          (Int.tdiv (n + THREADS_PER_TICK - 1) THREADS_PER_TICK) ∧
      n ≤ THREADS_PER_TICK *
          Int.tdiv (n + THREADS_PER_TICK - 1) THREADS_PER_TICK ∧
      THREADS_PER_TICK *
          (Int.tdiv (n + THREADS_PER_TICK - 1) THREADS_PER_TICK - 1) < n) := by
  refine ⟨rfl, fun h => ?_, fun h => ⟨?_, ?_, ?_⟩⟩
  · unfold adjustInterval
    rw [if_neg (by omega)]
  · unfold adjustInterval
    rw [if_pos h]
  · unfold THREADS_PER_TICK at h ⊢
    rw [Int.tdiv_eq_ediv] <;> omega
  · unfold THREADS_PER_TICK at h ⊢
    rw [Int.tdiv_eq_ediv] <;> omega

/-- C8 witness: concrete evaluations through `adjustInterval_spec`. -/
theorem adjustInterval_spec_witness :
    adjustInterval 10000000 8 = 10000000 ∧
    adjustInterval 10000000 64 = Int.tdiv 10000000 (Int.tdiv (64 + 8 - 1) 8) := by
  constructor
  · exact (adjustInterval_spec 10000000 8).2.1 (by decide)
  · exact ((adjustInterval_spec 10000000 64).2.2 (by decide)).1

/-- C10: `MIN_INTERVAL` is 100000 ns (100 microseconds) and, in
idle-sampling mode, the end-of-iteration sleep of `timerLoop` is never
shorter than `MIN_INTERVAL`: when `next_cycle_time - now` exceeds
`MIN_INTERVAL` the loop sleeps for that slack and keeps
`next_cycle_time`, otherwise it sets `next_cycle_time = now +
MIN_INTERVAL` and sleeps exactly `MIN_INTERVAL`. -/
theorem min_interval_floor (next_cycle_time current_time : Int) :
    MIN_INTERVAL = 100000 ∧
    MIN_INTERVAL ≤ (iterationSleep next_cycle_time current_time).1 ∧
    (MIN_INTERVAL < next_cycle_time - current_time →
      iterationSleep next_cycle_time current_time =
        (next_cycle_time - current_time, next_cycle_time)) ∧
    (next_cycle_time - current_time ≤ MIN_INTERVAL →
      iterationSleep next_cycle_time current_time =
        (MIN_INTERVAL, current_time + MIN_INTERVAL)) := by
  refine ⟨rfl, ?_, fun h => ?_, fun h => ?_⟩
  · unfold iterationSleep
    split <;> omega
  · unfold iterationSleep
    rw [if_pos h]
  · unfold iterationSleep
    rw [if_neg (by omega)]

/-- C10 witness: concrete evaluations through `min_interval_floor`. -/
theorem min_interval_floor_witness :
    iterationSleep 300000 0 = (300000, 300000) ∧
    iterationSleep 100 0 = (100000, 100000) := by
  constructor
  · exact (min_interval_floor 300000 0).2.2.1 (by decide)
  · have h := (min_interval_floor 100 0).2.2.2 (by decide)
    simpa using h

/-- C3 counterexample: the arm phase of `walkStack` does not perform its
stores in the order the claim states (`handler_may_publish` last); in
the source `_thread_data_settable = true` is the third store, before
`_stack_walked` and `_thread_data_ready` are cleared. -/
theorem armWriteOrder_ne_spec : armWriteOrder ≠ specArmWriteOrder := by
  decide

/-- C3 amended: the arm phase stores, in source order, `target_tid`,
then `context_ptr = null`, then `handler_may_publish = true`, then
`stack_walked = false`, then `context_ready = false`; in particular
`handler_may_publish` is set before the two flags are cleared (there is
also no separate fence after the stores, each store being seq-cst). -/
theorem armWriteOrder_actual (tid : Int) (s : Slot) :
    armWriteOrder =
      [SlotField.targetTid, SlotField.contextPtr, SlotField.handlerMayPublish,
       SlotField.stackWalked, SlotField.contextReady] ∧
    armWriteOrder.indexOf SlotField.handlerMayPublish <
      armWriteOrder.indexOf SlotField.stackWalked ∧
    armWriteOrder.indexOf SlotField.handlerMayPublish <
      armWriteOrder.indexOf SlotField.contextReady ∧
    armSlot tid s =
      { threadId := tid, data := none, settable := true, ready := false,
        walked := false } := by
  exact ⟨rfl, by decide, by decide, rfl⟩

/-- C1: during one arm phase the settable flag starts `true` and is
written only by the handlers' strong CASes, whose seq-cst total order
`casSuccCount` folds over; at most one of them succeeds, and an
invocation finding the flag already `false` returns without touching
the slot. -/
theorem handshake_at_most_one_cas_win :
    (∀ n : Nat, casSuccCount true n ≤ 1) ∧
    (∀ (s : Slot) (mytid : Int) (dataAddr : Nat), s.settable = false →
      signalHandlerRun s mytid dataAddr = HandlerResult.earlyReturn s) := by
  constructor
  · intro n
    cases n with
    | zero => simp [casSuccCount]
    | succ m => simp [casSuccCount, casSettable, casSuccCount_false]
  · intro s mytid dataAddr h
    unfold signalHandlerRun
    split
    · rfl
    · rw [if_pos (by simp [casSettable, h])]

/-- C1 witness: three successive CAS attempts on an armed slot yield at
most one success, and an invocation after the winner returns early. -/
theorem handshake_at_most_one_cas_win_witness :
    casSuccCount true 3 ≤ 1 ∧
    signalHandlerRun
        { threadId := 5, data := none, settable := false, ready := false,
          walked := false } 5 17 =
      HandlerResult.earlyReturn
        { threadId := 5, data := none, settable := false, ready := false,
          walked := false } :=
  ⟨handshake_at_most_one_cas_win.1 3,
   handshake_at_most_one_cas_win.2 _ 5 17 rfl⟩

/-- C4: a `signalHandler` invocation whose thread id differs from
`_thread_id`, or which fails the CAS on `_thread_data_settable`,
returns immediately with the slot exactly as it found it: it publishes
neither `_thread_data` nor `_thread_data_ready` nor `_stack_walked`,
and never reaches the spin on `_stack_walked`. -/
theorem signalHandler_early_return (s : Slot) (mytid : Int) (dataAddr : Nat)
    (h : mytid ≠ s.threadId ∨ s.settable = false) :
    signalHandlerRun s mytid dataAddr = HandlerResult.earlyReturn s := by
  unfold signalHandlerRun
  rcases h with h | h
  · rw [if_pos h]
  · split
    · rfl
    · rw [if_pos (by simp [casSettable, h])]

/-- C4 witness: a mismatched thread id returns the slot unchanged. -/
theorem signalHandler_early_return_witness :
    signalHandlerRun
        { threadId := 1, data := none, settable := true, ready := false,
          walked := false } 2 9 =
      HandlerResult.earlyReturn
        { threadId := 1, data := none, settable := true, ready := false,
          walked := false } :=
  signalHandler_early_return _ 2 9 (Or.inl (by decide))

/-- A `waitWhile` run with the default timeout argument `-1` can only
finish by observing its condition false; it never reports a timeout. -/
theorem waitWhileRun_no_timeout (cond : Nat → Bool) (elapsed : Nat → Int) :
    ∀ (fuel i : Nat) (r : Bool),
      waitWhileRun cond elapsed (-1) fuel i = some r →
      r = true ∧ ∃ j, cond j = false := by
  intro fuel
  induction fuel with
  | zero =>
    intro i r h
    simp [waitWhileRun] at h
  | succ m ih =>
    intro i r h
    unfold waitWhileRun at h
    by_cases hc : cond i = false
    · rw [if_pos hc] at h
      exact ⟨by injection h with h; exact h.symm, i, hc⟩
    · rw [if_neg hc, if_neg (by simp)] at h
      exact ih (i + 1) r h

/-- C5: the winning handler's wait on `_stack_walked` is the
`waitWhile` call with no timeout; whenever it returns, the result is
`true` and some load of `_stack_walked` observed `true` — the handler
never returns out of the wait while `_stack_walked` is false, and there
is no error path skipping the wait. -/
theorem signalHandler_wait_no_timeout (stackWalked : Nat → Bool)
    (elapsed : Nat → Int) (fuel : Nat) (r : Bool)
    (h : handlerWaitForStackWalk stackWalked elapsed fuel = some r) :
    r = true ∧ ∃ i, stackWalked i = true := by
  obtain ⟨hr, j, hj⟩ :=
    waitWhileRun_no_timeout (fun i => ! stackWalked i) elapsed fuel 0 r h
  refine ⟨hr, j, ?_⟩
  simpa using hj

/-- C5 witness: a wait whose first observation of `_stack_walked` is
`true` returns `true`. -/
theorem signalHandler_wait_no_timeout_witness :
    true = true ∧ ∃ i : Nat, (fun _ : Nat => true) i = true :=
  signalHandler_wait_no_timeout (fun _ => true) (fun _ => 0) 1 true rfl

/-- C9 counterexample: `start` with a plainly invalid interval
(`args._wall` unset, `args._interval = -5`) returns no configuration
error — `Engine::check` accepts everything — and mutates state:
`_running` becomes true even for these arguments. -/
theorem start_no_configuration_error :
    Engine.check { wall := -1, interval := -5, event := "cpu" } = Error.OK ∧
    (WallClock.start { wall := -1, interval := -5, event := "cpu" } 10000000
        true
        { sampleIdle := false, interval := 0, handlerInstalled := false,
          running := false }).1 = Error.OK ∧
    (WallClock.start { wall := -1, interval := -5, event := "cpu" } 10000000
        true
        { sampleIdle := false, interval := 0, handlerInstalled := false,
          running := false }).2.running = true := by
  refine ⟨rfl, ?_, ?_⟩ <;> decide

/-- C9 amended: `start` performs no validation of interval or event:
`Engine::check` returns OK for every argument set, `start` never returns
a configuration error, it unconditionally installs the signal handler
and sets `_running = true`, and it fails exactly when the timer thread
cannot be created (with the state already mutated). -/
theorem start_validation_free (args : Arguments) (defaultInterval : Int)
    (pthreadCreateOk : Bool) (s : EngineState) :
    Engine.check args = Error.OK ∧
    ((WallClock.start args defaultInterval pthreadCreateOk s).1 = Error.OK ↔
      pthreadCreateOk = true) ∧
    (WallClock.start args defaultInterval pthreadCreateOk s).2.running =
      true ∧
    (WallClock.start args defaultInterval pthreadCreateOk
        s).2.handlerInstalled = true := by
  refine ⟨rfl, ?_, ?_, ?_⟩ <;> unfold WallClock.start <;>
    cases pthreadCreateOk <;> simp

/-- C9 amended witness: concrete run through `start_validation_free`:
thread-creation failure is the only failing outcome. -/
theorem start_validation_free_witness :
    (WallClock.start { wall := 0, interval := 0, event := "wall" } 10000000
        false
        { sampleIdle := false, interval := 0, handlerInstalled := false,
          running := false }).1 = Error.OK ↔ false = true :=
  (start_validation_free { wall := 0, interval := 0, event := "wall" }
    10000000 false
    { sampleIdle := false, interval := 0, handlerInstalled := false,
      running := false }).2.1

/-- C2: `getThreadState` returns SLEEPING exactly when the instruction
at `pc` is the syscall instruction, or when the read guard holds (low
12 bits of `pc` at least `SYSCALL_SIZE`, or the library oracle maps
`prev_pc`), the instruction at `prev_pc = pc - SYSCALL_SIZE` is a
syscall, and the interrupted-syscall frame check succeeds; it returns
RUNNING in every other case, and it dereferences `prev_pc` only when
the guard holds. -/
theorem getThreadState_spec (ctx : ClassifierCtx) (pc : Nat) :
    (getThreadState ctx pc = ThreadState.THREAD_SLEEPING ↔
      (ctx.isSyscallAt pc = true ∨
        ((ctx.syscallSize ≤ pc &&& 0xfff ∨
            ctx.findLibraryByAddress (prevPC ctx pc) = true) ∧
          ctx.isSyscallAt (prevPC ctx pc) = true ∧
          ctx.checkInterruptedSyscall = true))) ∧
    (getThreadState ctx pc = ThreadState.THREAD_RUNNING ∨
      getThreadState ctx pc = ThreadState.THREAD_SLEEPING) ∧
    (ctx.isSyscallAt pc = false →
      ¬(ctx.syscallSize ≤ pc &&& 0xfff ∨
          ctx.findLibraryByAddress (prevPC ctx pc) = true) →
      getThreadStateReads ctx pc = [pc]) ∧
    (ctx.isSyscallAt pc = false →
      (ctx.syscallSize ≤ pc &&& 0xfff ∨
          ctx.findLibraryByAddress (prevPC ctx pc) = true) →
      getThreadStateReads ctx pc = [pc, prevPC ctx pc]) := by
  by_cases h1 : ctx.isSyscallAt pc = true
  · simp [getThreadState, getThreadStateReads, getThreadStateWithReads, h1]
  · by_cases h2 : (ctx.syscallSize ≤ pc &&& 0xfff ∨
        ctx.findLibraryByAddress (prevPC ctx pc) = true)
    · by_cases h3 : (ctx.isSyscallAt (prevPC ctx pc) = true ∧
          ctx.checkInterruptedSyscall = true)
      · simp [getThreadState, getThreadStateReads, getThreadStateWithReads,
          h1, h2, h3]
      · simp [getThreadState, getThreadStateReads, getThreadStateWithReads,
          h1, h2, h3]
    · simp [getThreadState, getThreadStateReads, getThreadStateWithReads,
        h1, h2]

/-- C2 witness: concrete classifications through `getThreadState_spec`:
a pc sitting on a syscall instruction is SLEEPING, and with the guard
false the classifier reads only `pc`. -/
theorem getThreadState_spec_witness :
    getThreadState
        { syscallSize := 2, isSyscallAt := fun a => decide (a = 4096),
          findLibraryByAddress := fun _ => false,
          checkInterruptedSyscall := true } 4096 =
      ThreadState.THREAD_SLEEPING ∧
    getThreadStateReads
        { syscallSize := 2, isSyscallAt := fun _ => false,
          findLibraryByAddress := fun _ => false,
          checkInterruptedSyscall := true } 4097 = [4097] := by
  constructor
  · exact (getThreadState_spec
      { syscallSize := 2, isSyscallAt := fun a => decide (a = 4096),
        findLibraryByAddress := fun _ => false,
        checkInterruptedSyscall := true } 4096).1.mpr (Or.inl (by decide))
  · exact (getThreadState_spec
      { syscallSize := 2, isSyscallAt := fun _ => false,
        findLibraryByAddress := fun _ => false,
        checkInterruptedSyscall := true } 4097).2.2.1 (by decide) (by decide)

/-- C7: `walkStack` returns false, resets `_thread_id` to the sentinel
`-1` and calls the recorder zero times, both when
`OS::sendSignalToThread` fails and when the `HANDSHAKE_TIMEOUT = 10 ms`
wait on `_thread_data_ready` times out; and in the timer loop's
per-iteration target loop a failed `walkStack` leaves `count`
unchanged and the loop continues with the remaining thread ids. -/
theorem walkStack_failure_semantics (tid : Int) (env : WalkEnv) (s : Slot)
    (self : Int) (filterEnabled : Bool) (accept : Int → Bool)
    (sampleIdle : Bool) (threadRunning : Int → Bool) (walkOk : Int → Bool)
    (rest : List Int) (count : Int) :
    HANDSHAKE_TIMEOUT = 10 * 1000 * 1000 ∧
    (env.sendSignalOk = false →
      walkStackRun tid env s =
        some ({ armSlot tid s with threadId := -1 }, false, 0)) ∧
    (waitWhileRun (fun i => ! env.readyObs i) env.elapsed HANDSHAKE_TIMEOUT
        env.fuel 0 = some false →
      walkStackRun tid env s =
        some ({ armSlot tid s with threadId := -1 }, false, 0)) ∧
    (count < THREADS_PER_TICK → tid ≠ -1 →
      ¬(tid = self ∨ (filterEnabled = true ∧ accept tid = false)) →
      (sampleIdle = true ∨ threadRunning tid = true) → walkOk tid = false →
      innerLoop self filterEnabled accept sampleIdle threadRunning walkOk
          (tid :: rest) count =
        innerLoop self filterEnabled accept sampleIdle threadRunning walkOk
          rest count) := by
  refine ⟨rfl, fun h => ?_, fun h => ?_, fun h1 h2 h3 h4 h5 => ?_⟩
  · unfold walkStackRun
    rw [if_pos h]
  · unfold walkStackRun
    by_cases hs : env.sendSignalOk = false
    · rw [if_pos hs]
    · rw [if_neg hs, h]
  · conv_lhs => rw [innerLoop]
    rw [if_neg (by omega), if_neg h2, if_neg h3, if_pos h4,
      if_neg (by simp [h5])]

/-- C7 witness: a `walkStack` call whose signal delivery fails returns
false with `_thread_id = -1` and zero recorder calls, and such a failed
sample does not advance the target loop's count. -/
theorem walkStack_failure_semantics_witness :
    walkStackRun 4
        { sendSignalOk := false, readyObs := fun _ => false,
          elapsed := fun _ => 0, fuel := 0 }
        { threadId := 0, data := none, settable := false, ready := false,
          walked := false } =
      some ({ armSlot 4
          { threadId := 0, data := none, settable := false, ready := false,
            walked := false } with threadId := -1 }, false, 0) ∧
    innerLoop 1 false (fun _ => true) true (fun _ => true) (fun _ => false)
        [4] 0 =
      innerLoop 1 false (fun _ => true) true (fun _ => true)
        (fun _ => false) [] 0 := by
  constructor
  · exact (walkStack_failure_semantics 4
      { sendSignalOk := false, readyObs := fun _ => false,
        elapsed := fun _ => 0, fuel := 0 }
      { threadId := 0, data := none, settable := false, ready := false,
        walked := false } 1 false (fun _ => true) true (fun _ => true)
      (fun _ => false) [] 0).2.1 rfl
  · exact (walkStack_failure_semantics 4
      { sendSignalOk := false, readyObs := fun _ => false,
        elapsed := fun _ => 0, fuel := 0 }
      { threadId := 0, data := none, settable := false, ready := false,
        walked := false } 1 false (fun _ => true) true (fun _ => true)
      (fun _ => false) [] 0).2.2.2 (by decide) (by decide) (by simp)
      (Or.inl rfl) rfl


/-- The handshake invariant holds at the start of an arm phase whose
settable flag is still false. -/
theorem hsInv_init (d : Nat) (s0 : Slot) (h : s0.settable = false) :
    HSInv d (initConfig s0) := by
  dsimp only [HSInv, initConfig]
  exact ⟨fun _ => h, fun hw => absurd hw (by decide),
    fun hh => absurd hh (by decide), fun hw => absurd hw (by decide),
    fun h5 => absurd h5 (by decide), fun _ hv => Option.noConfusion hv,
    fun hw => absurd hw (by decide)⟩

/-- The handshake invariant is preserved by every interleaved step of
the driver and the handler. -/
theorem hsInv_step (T mytid : Int) (d : Nat) (c c' : Config)
    (hinv : HSInv d c) (hstep : Step T mytid d c c') : HSInv d c' := by
  obtain ⟨i1, i2, i3, i4, i5, i6, i7⟩ := hinv
  cases hstep with
  | armTargetTid h =>
    dsimp only [HSInv, applyArmWrite]
    exact ⟨fun _ => i1 (by omega), fun hw => absurd (i2 hw) (by omega), i3,
      i4, fun h5 => absurd h5 (by omega), i6, i7⟩
  | armContextPtr h =>
    dsimp only [HSInv, applyArmWrite]
    exact ⟨fun _ => i1 (by omega), fun hw => absurd (i2 hw) (by omega), i3,
      fun hw _ => absurd (i2 hw) (by omega), fun h5 => absurd h5 (by omega),
      i6, i7⟩
  | armMayPublish h =>
    dsimp only [HSInv, applyArmWrite]
    exact ⟨fun h3 => absurd h3 (by omega), fun _ => by omega, i3,
      fun hw _ => absurd (i2 hw) (by omega), fun h5 => absurd h5 (by omega),
      i6, i7⟩
  | armStackWalked h =>
    dsimp only [HSInv, applyArmWrite]
    exact ⟨fun h3 => absurd h3 (by omega), fun _ => by omega, i3, i4,
      fun h5 => absurd h5 (by omega), i6, i7⟩
  | armContextReady h =>
    dsimp only [HSInv, applyArmWrite]
    exact ⟨fun h3 => absurd h3 (by omega), fun _ => by omega, i3, i4,
      fun _ hr => absurd hr (by decide), i6, i7⟩
  | driverLoadData h hready =>
    dsimp only [HSInv]
    refine ⟨fun h3 => absurd h3 (by omega), fun _ => by omega, i3, i4,
      fun _ hr => i5 (by omega) hr, ?_, i7⟩
    intro v hv
    injection hv with hv
    obtain ⟨hw, hp⟩ := i5 (by omega) hready
    rw [← hv]
    exact i4 hw (by omega)
  | driverTimeout h =>
    dsimp only [HSInv]
    exact ⟨fun h3 => absurd h3 (by omega), fun _ => by omega, i3, i4,
      fun _ hr => i5 (by omega) hr, i6, i7⟩
  | driverRelease h =>
    dsimp only [HSInv]
    exact ⟨fun h3 => absurd h3 (by omega), fun _ => by omega, i3, i4,
      fun _ hr => i5 (by omega) hr, i6, i7⟩
  | handlerTidMatch h hm =>
    dsimp only [HSInv]
    exact ⟨i1, i2, fun hh => absurd hh (by decide),
      fun _ h3 => absurd h3 (by omega),
      fun h5 hr => absurd (i5 h5 hr).2 (by omega), i6,
      fun hw => absurd (i7 hw) (by omega)⟩
  | handlerTidMismatch h hm =>
    dsimp only [HSInv]
    exact ⟨i1, i2, fun hh => absurd hh (by decide),
      fun hw _ => absurd (i7 hw) (by omega),
      fun h5 hr => ⟨(i5 h5 hr).1, by omega⟩, i6, fun _ => by omega⟩
  | handlerCasWin h hset =>
    dsimp only [HSInv]
    refine ⟨fun _ => rfl, ?_, fun _ => rfl,
      fun _ h3 => absurd h3 (by omega),
      fun h5 hr => absurd (i5 h5 hr).2 (by omega), i6, fun _ => by omega⟩
    intro _
    by_contra hcon
    have hfalse := i1 (by omega)
    rw [hfalse] at hset
    exact absurd hset (by decide)
  | handlerCasFail h hset =>
    dsimp only [HSInv]
    exact ⟨i1, i2, fun hh => absurd hh (by decide),
      fun hw _ => absurd (i7 hw) (by omega),
      fun h5 hr => absurd (i5 h5 hr).2 (by omega), i6, fun _ => by omega⟩
  | handlerPublishData h =>
    dsimp only [HSInv]
    exact ⟨i1, i2, fun _ => i3 (Or.inl h), fun _ _ => rfl,
      fun h5 hr => absurd (i5 h5 hr).2 (by omega), i6, fun _ => by omega⟩
  | handlerPublishReady h =>
    dsimp only [HSInv]
    exact ⟨i1, i2, fun _ => i3 (Or.inr (Or.inl h)),
      fun hw _ => i4 hw (by omega),
      fun _ _ => ⟨i3 (Or.inr (Or.inl h)), by omega⟩, i6, fun _ => by omega⟩
  | handlerSpinDone h hwalked =>
    dsimp only [HSInv]
    exact ⟨i1, i2, fun hh => absurd hh (by decide),
      fun hw _ => i4 hw (by omega), fun h5 hr => ⟨(i5 h5 hr).1, by omega⟩,
      i6, fun _ => by omega⟩

/-- The handshake invariant holds in every reachable configuration of an
arm phase started with the settable flag false. -/
theorem hsInv_reach (T mytid : Int) (d : Nat) (s0 : Slot)
    (h : s0.settable = false) (c : Config) (hr : Reach T mytid d s0 c) :
    HSInv d c := by
  induction hr with
  | refl => exact hsInv_init d s0 h
  | tail hr hs ih => exact hsInv_step T mytid d _ _ ih hs

/-- C6: in any interleaving of one `walkStack` arm phase (started with
the settable flag false) with one `signalHandler` invocation, whenever
the driver past its arm stores observes `_thread_data_ready = true`,
`_thread_data` holds the winning handler's stack-local `Data` address
(the handler stores `_thread_data` strictly before
`_thread_data_ready`), and so the driver's subsequent
`_thread_data.load()` never yields null. -/
theorem handshake_context_ready_nonnull (T mytid : Int) (d : Nat)
    (s0 : Slot) (h0 : s0.settable = false) (c : Config)
    (hr : Reach T mytid d s0 c) :
    (5 ≤ c.dpc → c.slot.ready = true → c.slot.data = some d) ∧
    (∀ v, c.loaded = some v → v = some d) := by
  obtain ⟨i1, i2, i3, i4, i5, i6, i7⟩ := hsInv_reach T mytid d s0 h0 c hr
  refine ⟨fun h5 hready => ?_, i6⟩
  obtain ⟨hw, hp⟩ := i5 h5 hready
  exact i4 hw (by omega)

/-- C6 witness: a complete interleaving — arm phase, then the handler's
tid check, CAS win, publication of `_thread_data = 3` and
`_thread_data_ready = true`, then the driver's load — reaches a
configuration whose loaded value is the handler's Data address. -/
theorem handshake_context_ready_nonnull_witness :
    (⟨⟨7, some 3, false, true, false⟩, 6, 4, true,
        some (some 3)⟩ : Config).slot.data = some 3 ∧
    (some 3 : Option Nat) = some 3 := by
  have hreach : Reach 7 7 3 ⟨0, none, false, false, false⟩
      (⟨⟨7, some 3, false, true, false⟩, 6, 4, true,
        some (some 3)⟩ : Config) := by
    exact Reach.tail (Reach.tail (Reach.tail (Reach.tail (Reach.tail
      (Reach.tail (Reach.tail (Reach.tail (Reach.tail (Reach.tail
        Reach.refl
        (Step.armTargetTid _ rfl))
        (Step.armContextPtr _ rfl))
        (Step.armMayPublish _ rfl))
        (Step.armStackWalked _ rfl))
        (Step.armContextReady _ rfl))
        (Step.handlerTidMatch _ rfl rfl))
        (Step.handlerCasWin _ rfl rfl))
        (Step.handlerPublishData _ rfl))
        (Step.handlerPublishReady _ rfl))
        (Step.driverLoadData _ rfl rfl)
  have hmain := handshake_context_ready_nonnull 7 7 3
    ⟨0, none, false, false, false⟩ rfl _ hreach
  exact ⟨hmain.1 (by decide) rfl, hmain.2 (some 3) rfl⟩
